import Mathlib

/-!
Shallow embedding of the dsync code generator (src/src/code.rs) together with
the parts of the data model (parser / config types) that code.rs consumes.

Conventions used throughout:
* Rust `String` values are Lean `String`s; rendered code fragments are kept as
  structured values (lists of entries / tagged fragments) where the full text
  would only add noise, and as literal strings where the text itself matters.
* The stray token sequence at code.rs:360 (a lone `f.` before the push of the
  doc-comment line) is treated as a transcription artifact; it does not change
  any of the computations modelled here.
* Types and functions coming from files of the repository that are not under
  src/ (parser.rs, lib.rs) are modelled from the spec and carry a doc comment
  saying so.
-/

/-- Modelled from the spec: a parsed schema column (parser.rs is not in src/).
Spec section 3: name, base type tag, nullable flag, array flag, unsigned flag.
The field names follow the uses in code.rs (`value.name`, `value.ty`,
`value.is_nullable`, `value.is_array`, `value.is_unsigned`,
`value.column_name`). -/
structure ParsedColumnMacro where
  name : String
  column_name : String
  ty : String
  is_nullable : Bool
  is_array : Bool
  is_unsigned : Bool
deriving Repr, DecidableEq

/-- Modelled from the spec: a parsed schema table (parser.rs is not in src/).
Spec section 3: name, ordered columns, ordered primary-key column names,
foreign-key relations (target table, local join column), derived base struct
name. -/
structure ParsedTableMacro where
  name : String
  struct_name : String
  columns : List ParsedColumnMacro
  primary_key_columns : List String
  foreign_keys : List (String × String)
deriving Repr, DecidableEq

/-- Accessor used by code.rs (`table.primary_key_column_names()`); on this
model the primary-key columns are already plain strings. -/
def ParsedTableMacro.primary_key_column_names (t : ParsedTableMacro) : List String :=
  t.primary_key_columns

/-- Modelled from the spec: the resolved per-table options (lib.rs is not in
src/). Spec section 3 TableOptions: readonly flag, autogenerated-column name
set, string and byte representation choices (stored here as the rendered
representation string returned by `as_str()`), serialization toggle, and the
CRUD-function generation toggle. Only the getters actually called from
code.rs are modelled, as record fields. -/
structure TableOptions where
  readonly : Bool
  autogenerated_columns : List String
  serde : Bool
  fns : Bool
  create_str_type : String
  update_str_type : String
  create_bytes_type : String
  update_bytes_type : String
  use_async : Bool
deriving Repr, DecidableEq

/-- Modelled from the spec: the default table options (lib.rs is not in src/):
not readonly, no autogenerated columns, serde and CRUD functions enabled, and
the owned string and byte representations (`String`, `Vec<u8>`). -/
def TableOptions.default : TableOptions :=
  { readonly := false
    autogenerated_columns := []
    serde := true
    fns := true
    create_str_type := "String"
    update_str_type := "String"
    create_bytes_type := "Vec<u8>"
    update_bytes_type := "Vec<u8>"
    use_async := false }

/-- Modelled from the spec: the global generation config (lib.rs is not in
src/). Spec section 6: defaults plus per-table overrides, readonly affix
match lists, dedup toggles, namespace path prefixes, connection-type
identifier; code.rs additionally reads `options.default_impl` and
`diesel_backend`. -/
structure GenerationConfig where
  default_table_options : TableOptions
  table_options : List (String × TableOptions)
  connection_type : String
  schema_path : String
  model_path : String
  once_common_structs : Bool
  once_connection_type : Bool
  readonly_prefixes : List String
  readonly_suffixes : List String
  default_impl : Bool
  diesel_backend : String
deriving Repr, DecidableEq

/-- Compile-time cargo features of dsync that gate parts of code.rs
(`advanced-queries`, `async`, `tsync`, `derive-queryablebyname`); modelled as
explicit booleans so the embedding covers every build. -/
structure Features where
  advanced_queries : Bool
  use_async : Bool
  tsync : Bool
  derive_queryablebyname : Bool
deriving Repr, DecidableEq

/-- Embedding of Rust `str::starts_with` on string arguments, via the
character lists. -/
def str_starts_with (s p : String) : Bool :=
  p.data.isPrefixOf s.data

/-- Embedding of Rust `str::ends_with` on string arguments, via the
character lists. -/
def str_ends_with (s p : String) : Bool :=
  p.data.isSuffixOf s.data

/-- Modelled from the spec: `GenerationConfig::table` (lib.rs is not in src/)
resolves the options for one table: the table-keyed override if present,
otherwise the defaults; a table whose name starts with a configured readonly
prefix or ends with a configured readonly suffix is forced readonly
(spec section 6). -/
def GenerationConfig.table (config : GenerationConfig) (name : String) : TableOptions :=
  let base :=
    match config.table_options.lookup name with
    | some o => o
    | none => config.default_table_options
  if config.readonly_prefixes.any (fun p => str_starts_with name p)
      || config.readonly_suffixes.any (fun p => str_ends_with name p) then
    { base with readonly := true }
  else
    base

/-- Modelled from the spec: `GenerationConfig::get_schema_path` (lib.rs is not
in src/), the schema-namespace path prefix. -/
def GenerationConfig.get_schema_path (config : GenerationConfig) : String :=
  config.schema_path

/-- Modelled from the spec: `GenerationConfig::get_model_path` (lib.rs is not
in src/), the model-namespace path prefix. -/
def GenerationConfig.get_model_path (config : GenerationConfig) : String :=
  config.model_path

/-- Modelled from the spec: `GenerationConfig::any_once_option` (lib.rs is not
in src/) is true when any of the generate-once toggles is active
(spec section 4.4, shared fragments emitted once). -/
def GenerationConfig.any_once_option (config : GenerationConfig) : Bool :=
  config.once_common_structs || config.once_connection_type

/-- Modelled from the spec: `get_table_module_name` (lib.rs is not in src/)
maps a table name to the name of its model module; its exact shape does not
matter for any claim, the table name itself is used. -/
def get_table_module_name (name : String) : String :=
  name

/-- Modelled from the spec: character-level worker for the Pascal-case
normalization; the boolean says whether the next letter starts a new word. -/
def pascal_chars : Bool → List Char → List Char
  | _, [] => []
  | cap, c :: cs =>
    if c = '_' then pascal_chars true cs
    else (if cap then c.toUpper else c) :: pascal_chars false cs

/-- Modelled from the spec: Pascal-case normalization (`heck::ToPascalCase`,
an external crate): drop underscores and capitalize the first letter of each
underscore-separated part. -/
def to_pascal_case (s : String) : String :=
  String.mk (pascal_chars true s.data)

/-- StructType from code.rs: the three struct variants Read / Update /
Create. -/
inductive StructType where
  | Read
  | Update
  | Create
deriving Repr, DecidableEq

/-- StructType::prefix from code.rs: prefix for the struct identifier. -/
def StructType.prefixStr : StructType → String
  | .Read => ""
  | .Update => "Update"
  | .Create => "Create"

/-- StructType::suffix from code.rs: suffix for the struct identifier
(empty for all three variants). -/
def StructType.suffixStr : StructType → String
  | .Read => ""
  | .Update => ""
  | .Create => ""

/-- StructType::format from code.rs: prefix ++ name ++ suffix. -/
def StructType.format (ty : StructType) (name : String) : String :=
  ty.prefixStr ++ name ++ ty.suffixStr

/-- StructField from code.rs: name, actual table column name, base Rust type,
optional flag, vec flag. -/
structure StructField where
  name : String
  column_name : String
  base_type : String
  is_optional : Bool
  is_vec : Bool
deriving Repr, DecidableEq

/-- StructField::to_rust_type from code.rs: wrap the base type, in this
order, as `Vec<Option<..>>` when the field is a vec, then as `Option<..>`
when the field is optional. -/
def StructField.to_rust_type (f : StructField) : String :=
  let rust_type := f.base_type
  let rust_type := if f.is_vec then "Vec<Option<" ++ rust_type ++ ">>" else rust_type
  let rust_type := if f.is_optional then "Option<" ++ rust_type ++ ">" else rust_type
  rust_type

/-- Embedding of the call `value.ty.replace(\x27i\x27, "u")` (Rust
`str::replace` with a one-character pattern): every occurrence of the
character i is replaced by u. -/
def replace_i_with_u (s : String) : String :=
  String.mk (s.data.map (fun ch => if ch = 'i' then 'u' else ch))

/-- From<&ParsedColumnMacro> for StructField, from code.rs: the base type of
an unsigned column has its i replaced by u, the optional flag copies the
nullable flag and the vec flag copies the array flag. -/
def StructField.ofColumn (value : ParsedColumnMacro) : StructField :=
  { name := value.name
    column_name := value.column_name
    base_type := if value.is_unsigned then replace_i_with_u value.ty else value.ty
    is_optional := value.is_nullable
    is_vec := value.is_array }

/-- Struct::fields from code.rs: all columns for Read, all columns that are
not primary-key columns for Update, all columns that are not in the resolved
autogenerated-column set for Create. -/
def Struct.fields (ty : StructType) (table : ParsedTableMacro) (opts : TableOptions) :
    List StructField :=
  (table.columns.filter (fun c =>
    match ty with
    | .Read => true
    | .Update => !(table.primary_key_columns.contains c.name)
    | .Create => !(opts.autogenerated_columns.contains c.name))).map StructField.ofColumn

/-- Substitution of the configured string / byte representation, from the
field loop of Struct::render (code.rs lines 338-350): a base type `String`
becomes the configured string representation of the variant, a base type
`Vec<u8>` becomes the configured byte representation; Read keeps the base
type. -/
def substitute_str_type (ty : StructType) (opts : TableOptions) (f : StructField) : StructField :=
  if f.base_type = "String" then
    { f with base_type :=
        match ty with
        | .Read => f.base_type
        | .Update => opts.update_str_type
        | .Create => opts.create_str_type }
  else if f.base_type = "Vec<u8>" then
    { f with base_type :=
        match ty with
        | .Read => f.base_type
        | .Update => opts.update_bytes_type
        | .Create => opts.create_bytes_type }
  else
    f

/-- Rendered type of one field, from the field loop of Struct::render
(code.rs lines 335-359): substitute the representation, assemble the Rust
type, and for the Update variant wrap the result in one further
`Option<..>`. -/
def render_field_type (ty : StructType) (opts : TableOptions) (f : StructField) : String :=
  let f := substitute_str_type ty opts f
  let field_type := f.to_rust_type
  if ty = StructType.Update then "Option<" ++ field_type ++ ">" else field_type

/-- Struct::render from code.rs, projected to the list of rendered fields
(field name and rendered type, in column order). The readonly early return
(lines 275-285) suppresses Update and Create; an empty field list suppresses
the struct (lines 304-308); `none` plays the role of
`rendered_code = None` together with `has_fields = Some(false)`. -/
def Struct.render (ty : StructType) (table : ParsedTableMacro) (opts : TableOptions) :
    Option (List (String × String)) :=
  if opts.readonly && (ty = StructType.Update || ty = StructType.Create) then
    none
  else
    let fields := Struct.fields ty table opts
    if fields.isEmpty then
      none
    else
      some (fields.map (fun f => (f.name, render_field_type ty opts f)))

/-- Struct::has_fields from code.rs: set by render, true exactly when code
was rendered. -/
def Struct.has_fields (ty : StructType) (table : ParsedTableMacro) (opts : TableOptions) : Bool :=
  (Struct.render ty table opts).isSome

/-- Struct::has_code from code.rs: whether render produced code; on this
model it coincides with has_fields. -/
def Struct.has_code (ty : StructType) (table : ParsedTableMacro) (opts : TableOptions) : Bool :=
  (Struct.render ty table opts).isSome

/-- Derive name constants from the `derives` module of code.rs. -/
def derives.ASSOCIATIONS : String := "diesel::Associations"

/-- Derive name constant `IDENTIFIABLE` from code.rs. -/
def derives.IDENTIFIABLE : String := "diesel::Identifiable"

/-- Derive name constant `ASCHANGESET` from code.rs. -/
def derives.ASCHANGESET : String := "diesel::AsChangeset"

/-- Struct::attr_derive from code.rs (lines 196-239), as the list of derive
names that is joined into the `#[derive(..)]` attribute: Debug and Clone
always; Serialize and Deserialize when the resolved serde toggle is on; then
per variant: Read gets Queryable, Selectable, (QueryableByName when that
cargo feature is on), PartialEq, and then Associations plus Identifiable when
the table has foreign keys, else Identifiable alone when it has primary-key
columns; Update gets AsChangeset plus PartialEq unless every Update field is
a primary-key column, and always Default; Create gets Insertable. -/
def Struct.attr_derive (ty : StructType) (table : ParsedTableMacro) (config : GenerationConfig)
    (feats : Features) : List String :=
  let opts := config.table table.name
  ["Debug", "Clone"]
    ++ (if (config.table table.name).serde then ["serde::Serialize", "serde::Deserialize"] else [])
    ++ (match ty with
        | .Read =>
          (["diesel::Queryable", "diesel::Selectable"]
              ++ (if feats.derive_queryablebyname then ["diesel::QueryableByName"] else [])
              ++ ["PartialEq"])
            ++ (if !table.foreign_keys.isEmpty then
                  [derives.ASSOCIATIONS, derives.IDENTIFIABLE]
                else if !table.primary_key_columns.isEmpty then
                  [derives.IDENTIFIABLE]
                else [])
        | .Update =>
          (if !((Struct.fields .Update table opts).all
                (fun f => table.primary_key_column_names.contains f.name)) then
            [derives.ASCHANGESET, "PartialEq"]
          else [])
            ++ ["Default"]
        | .Create => ["diesel::Insertable"])

/-- Joined `#[derive(..)]` attribute string, the return value of
Struct::attr_derive in code.rs. -/
def Struct.attr_derive_str (ty : StructType) (table : ParsedTableMacro)
    (config : GenerationConfig) (feats : Features) : String :=
  "#[derive(" ++ String.intercalate ", " (Struct.attr_derive ty table config feats) ++ ")]"

/-- Computation of `primary_column_name_and_type` in build_table_fns
(code.rs lines 442-454): for each primary-key column name, the matching
column with its type; the Rust code panics via `expect` when a primary-key
name has no matching column, modelled as `none`. -/
def primary_column_name_and_type (table : ParsedTableMacro) :
    Option (List (String × String)) :=
  table.primary_key_columns.mapM (fun pk =>
    (table.columns.find? (fun c => c.name = pk)).map (fun col => (col.name, col.ty)))

/-- Computation of `item_id_params` in build_table_fns (code.rs lines
456-466): one `param_<name>: <type>` entry per primary-key column, joined by
a comma. -/
def item_id_params (pcnt : List (String × String)) : String :=
  String.intercalate ", " (pcnt.map (fun nt => "param_" ++ nt.1 ++ ": " ++ nt.2))

/-- Computation of `item_id_filters` in build_table_fns (code.rs lines
467-476): one `filter(<name>.eq(param_<name>))` per primary-key column,
joined by a dot into a chain of filter calls. -/
def item_id_filters (pcnt : List (String × String)) : String :=
  String.intercalate "." (pcnt.map (fun nt =>
    "filter(" ++ nt.1 ++ ".eq(param_" ++ nt.1 ++ "))"))

/-- Computation of `key_maybe_multiple` in build_table_fns (code.rs lines
523-528): the word used in the documentation lines, `key` for at most one
primary-key column and `keys` for more. -/
def key_maybe_multiple (pcnt : List (String × String)) : String :=
  if pcnt.length ≤ 1 then "key" else "keys"

/-- Semantics of a chain of diesel `.filter(..)` calls as emitted by
build_table_fns: a row passes the chained query exactly when it passes every
filter of the chain, each filter being an equality between the named column
of the row and the corresponding parameter. -/
def filter_chain_holds (conds : List String) (row param : String → Int) : Bool :=
  conds.all (fun n => row n == param n)

/-- Tags for the functions emitted by build_table_fns, each carrying the
fragments of its signature and documentation that the later theorems are
about. -/
inductive GeneratedFn where
  | commonStructs
  | createPayload (create_struct_identifier : String)
  | createDefault
  | readFn (key_word params filters : String)
  | paginateFn
  | filterHelper
  | updateFn (key_word params filters update_struct_identifier : String)
  | deleteFn (key_word params filters : String)
deriving Repr, DecidableEq

/-- Whether a generated function is one of the two create variants
(code.rs lines 497-521). -/
def GeneratedFn.isCreateFn : GeneratedFn → Bool
  | .createPayload _ => true
  | .createDefault => true
  | _ => false

/-- Whether a generated function is the update function. -/
def GeneratedFn.isUpdateFn : GeneratedFn → Bool
  | .updateFn _ _ _ _ => true
  | _ => false

/-- Whether a generated function is the delete function. -/
def GeneratedFn.isDeleteFn : GeneratedFn → Bool
  | .deleteFn _ _ _ => true
  | _ => false

/-- Whether a generated function is the read function. -/
def GeneratedFn.isReadFn : GeneratedFn → Bool
  | .readFn _ _ _ => true
  | _ => false

/-- build_table_fns from code.rs (lines 434-684), projected to the ordered
list of emitted functions: the common structs unless generated once, then
inside the impl block a create function (payload form when the Create struct
has fields, default-values form otherwise) unless the table is readonly, the
read function, the paginate function and the filter helper when the
`advanced-queries` feature is on, the update function when the Update struct
has fields and the table is not readonly, and the delete function unless the
table is readonly. Returns `none` when a primary-key column has no matching
table column (the `expect` panic of the Rust code). -/
def build_table_fns (table : ParsedTableMacro) (config : GenerationConfig)
    (feats : Features) : Option (List GeneratedFn) :=
  let table_options := config.table table.name
  match primary_column_name_and_type table with
  | none => none
  | some pcnt =>
    let params := item_id_params pcnt
    let filters := item_id_filters pcnt
    let key_word := key_maybe_multiple pcnt
    let struct_name := table.struct_name
    let is_readonly := table_options.readonly
    some (
      (if !config.once_common_structs then [GeneratedFn.commonStructs] else [])
      ++ (if !is_readonly then
            (if Struct.has_fields .Create table table_options then
              [GeneratedFn.createPayload (StructType.format .Create struct_name)]
            else
              [GeneratedFn.createDefault])
          else [])
      ++ [GeneratedFn.readFn key_word params filters]
      ++ (if feats.advanced_queries then [GeneratedFn.paginateFn, GeneratedFn.filterHelper] else [])
      ++ (if Struct.has_fields .Update table table_options && !is_readonly then
            [GeneratedFn.updateFn key_word params filters (StructType.format .Update struct_name)]
          else [])
      ++ (if !is_readonly then [GeneratedFn.deleteFn key_word params filters] else []))

/-- Numeric results of the paginate function emitted by build_table_fns
(code.rs lines 542-559): page, page size and number of pages, computed with
Rust i64 arithmetic (`/` truncates toward zero, `%` is the matching
remainder, hence `Int.tdiv` and `Int.tmod`). -/
structure PaginationNums where
  page : Int
  page_size : Int
  num_pages : Int
deriving Repr, DecidableEq

/-- Semantics of the generated paginate function (code.rs lines 542-559):
`page.max(0)`, `page_size.max(1)`, and
`total_items / page_size + i64::from(total_items % page_size != 0)`. -/
def paginate_nums (page page_size total_items : Int) : PaginationNums :=
  let page := max page 0
  let page_size := max page_size 1
  { page := page
    page_size := page_size
    num_pages :=
      total_items.tdiv page_size + (if total_items.tmod page_size ≠ 0 then 1 else 0) }

/-- generate_connection_type from code.rs (lines 722-728). -/
def generate_connection_type (config : GenerationConfig) : String :=
  "pub type ConnectionType = " ++ config.connection_type ++ ";"

/-- build_imports from code.rs (lines 731-765), as the ordered list of import
entries that is joined by newlines: the diesel import, one import per
foreign key, the async runtime import when that feature and toggle are on,
the schema import, the shared common import when any generate-once toggle is
active, and
finally a blank line plus the connection-type alias when the table generates
CRUD functions and the connection type is not generated once. -/
def build_imports (table : ParsedTableMacro) (config : GenerationConfig)
    (feats : Features) : List String :=
  let table_options := config.table table.name
  ["#[allow(unused)]\nuse crate::diesel::*;"]
    ++ table.foreign_keys.map (fun fk =>
        "use " ++ (config.get_model_path ++ get_table_module_name fk.1
          ++ "::" ++ to_pascal_case fk.1 ++ ";"))
    ++ (if feats.use_async && table_options.use_async then ["use diesel_async::RunQueryDsl;"] else [])
    ++ ["use " ++ (config.get_schema_path ++ "*;")]
    ++ (if config.any_once_option then ["use " ++ (config.get_model_path ++ "common::*;")] else [])
    ++ (if table_options.fns && !config.once_connection_type then
          ["", generate_connection_type config]
        else [])

/-- default_for_type from code.rs (lines 768-786): the default value
expression for a base type. -/
def default_for_type (typ : String) : String :=
  match typ with
  | "i8" | "u8" | "i16" | "u16" | "i32" | "u32" | "i64" | "u64" | "i128" | "u128"
  | "isize" | "usize" => "0"
  | "f32" | "f64" => "0.0"
  | "bool" => "false"
  | "String" => "String::new()"
  | "&str" | "&\x27static str" => "\"\""
  | "Cow<str>" => "Cow::Owned(String::new())"
  | _ => if str_starts_with typ "Option<" then "None" else "Default::default()"

/-- Field-to-default lines of build_default_impl_fn from code.rs (lines
789-809): one line per column of the argument list, a nullable column maps
to None and any other column to the default of its type. -/
def default_impl_lines (columns : List ParsedColumnMacro) : List String :=
  columns.map (fun col =>
    "            " ++ col.name ++ ": "
      ++ (if col.is_nullable then "None" else default_for_type col.ty))

/-- build_default_impl_fn from code.rs (lines 789-814): the full
`impl Default for <name>` text, with the per-column default lines joined by
comma plus newline. -/
def build_default_impl_fn (struct_name : String) (columns : List ParsedColumnMacro) : String :=
  "impl Default for " ++ struct_name ++ " \x7b\n    fn default() -> Self \x7b\n        Self \x7b\n"
    ++ String.intercalate ",\n" (default_impl_lines columns)
    ++ "\n        \x7d\n    \x7d\n\x7d"

/-- Tags for the ordered fragments pushed by generate_for_table, each
carrying the structured content relevant to the theorems. -/
inductive Fragment where
  | signature
  | importsBlock (entries : List String)
  | readStruct (code : Option (List (String × String)))
  | createStruct (code : List (String × String))
  | createDefaultImpl (code : String)
  | updateStruct (code : List (String × String))
  | tableFns (fns : List GeneratedFn)
  | readDefaultImpl (code : String)
deriving Repr, DecidableEq

/-- generate_for_table from code.rs (lines 817-869), projected to the ordered
fragment list: file signature, imports, the Read struct, the Create struct
followed (when the default-impl option is on) by a Default impl built from
all of the table columns, the Update struct, the function block when the
table generates CRUD functions, and (when the default-impl option is on) a
Default impl for the Read struct. Returns `none` exactly when
build_table_fns panics. -/
def generate_for_table (table : ParsedTableMacro) (config : GenerationConfig)
    (feats : Features) : Option (List Fragment) :=
  let struct_name := table.struct_name
  let table_options := config.table table.name
  let base :=
    [Fragment.signature, Fragment.importsBlock (build_imports table config feats),
      Fragment.readStruct (Struct.render .Read table table_options)]
    ++ (match Struct.render .Create table table_options with
        | some code =>
          [Fragment.createStruct code]
            ++ (if config.default_impl then
                  [Fragment.createDefaultImpl
                    (build_default_impl_fn (StructType.format .Create struct_name) table.columns)]
                else [])
        | none => [])
    ++ (match Struct.render .Update table table_options with
        | some code => [Fragment.updateStruct code]
        | none => [])
  let tail :=
    if config.default_impl then
      [Fragment.readDefaultImpl (build_default_impl_fn struct_name table.columns)]
    else []
  if table_options.fns then
    match build_table_fns table config feats with
    | none => none
    | some fns => some (base ++ [Fragment.tableFns fns] ++ tail)
  else
    some (base ++ tail)

/-- Definition following the words of claim C6 step (1): the unsigned
counterpart of the same width of a signed integer base type. -/
def spec_unsigned_counterpart (t : String) : String :=
  if t = "i8" then "u8"
  else if t = "i16" then "u16"
  else if t = "i32" then "u32"
  else if t = "i64" then "u64"
  else if t = "i128" then "u128"
  else if t = "isize" then "usize"
  else t

/-- Definition following the words of claim C6 as stated: the rendered type
of a field obtained by applying, in this fixed order, (1) the unsigned
mapping, (2) the array wrap, (3) the nullable wrap, (4) the extra optional
wrap for the Update variant — with no other step. -/
def claimed_pipeline_type (ty : StructType) (c : ParsedColumnMacro) : String :=
  let t := if c.is_unsigned then spec_unsigned_counterpart c.ty else c.ty
  let t := if c.is_array then "Vec<Option<" ++ t ++ ">>" else t
  let t := if c.is_nullable then "Option<" ++ t ++ ">" else t
  if ty = StructType.Update then "Option<" ++ t ++ ">" else t

/-- Definition following the words of the amended claim C6: the same pipeline
with one further step between (1) and (2): for the Create and Update
variants a base type of the generic string kind (`String`) or byte kind
(`Vec<u8>`) is replaced by the configured representation of that variant. -/
def amended_pipeline_type (ty : StructType) (opts : TableOptions) (c : ParsedColumnMacro) :
    String :=
  let t := if c.is_unsigned then spec_unsigned_counterpart c.ty else c.ty
  let t :=
    if t = "String" then
      match ty with
      | .Read => t
      | .Update => opts.update_str_type
      | .Create => opts.create_str_type
    else if t = "Vec<u8>" then
      match ty with
      | .Read => t
      | .Update => opts.update_bytes_type
      | .Create => opts.create_bytes_type
    else t
  let t := if c.is_array then "Vec<Option<" ++ t ++ ">>" else t
  let t := if c.is_nullable then "Option<" ++ t ++ ">" else t
  if ty = StructType.Update then "Option<" ++ t ++ ">" else t

/-- Example table from spec section 8: `todos(id, text, done)` with `id` as
primary key, `text` a non-null string and `done` a nullable boolean. -/
def todosTable : ParsedTableMacro :=
  { name := "todos"
    struct_name := "Todos"
    columns :=
      [ { name := "id", column_name := "id", ty := "i32", is_nullable := false,
          is_array := false, is_unsigned := false },
        { name := "text", column_name := "text", ty := "String", is_nullable := false,
          is_array := false, is_unsigned := false },
        { name := "done", column_name := "done", ty := "bool", is_nullable := true,
          is_array := false, is_unsigned := false } ]
    primary_key_columns := ["id"]
    foreign_keys := [] }

/-- Example table with a two-column primary key (a join table). -/
def joinTable : ParsedTableMacro :=
  { name := "todo_tags"
    struct_name := "TodoTags"
    columns :=
      [ { name := "todo_id", column_name := "todo_id", ty := "i32", is_nullable := false,
          is_array := false, is_unsigned := false },
        { name := "tag_id", column_name := "tag_id", ty := "i64", is_nullable := false,
          is_array := false, is_unsigned := false },
        { name := "note", column_name := "note", ty := "String", is_nullable := true,
          is_array := false, is_unsigned := false } ]
    primary_key_columns := ["todo_id", "tag_id"]
    foreign_keys := [] }

/-- Example table whose name matches the readonly prefix of
`readonlyConfig`. -/
def roTable : ParsedTableMacro :=
  { name := "ro_items"
    struct_name := "RoItems"
    columns :=
      [ { name := "id", column_name := "id", ty := "i32", is_nullable := false,
          is_array := false, is_unsigned := false },
        { name := "label", column_name := "label", ty := "String", is_nullable := false,
          is_array := false, is_unsigned := false } ]
    primary_key_columns := ["id"]
    foreign_keys := [] }

/-- Example configuration with all defaults and no generate-once toggles. -/
def defaultConfig : GenerationConfig :=
  { default_table_options := TableOptions.default
    table_options := []
    connection_type := "DbCon"
    schema_path := "crate::schema::"
    model_path := "crate::models::"
    once_common_structs := false
    once_connection_type := false
    readonly_prefixes := []
    readonly_suffixes := []
    default_impl := false
    diesel_backend := "diesel::pg::Pg" }

/-- Example configuration with a readonly prefix `ro_` and the default-impl
option enabled. -/
def readonlyConfig : GenerationConfig :=
  { defaultConfig with readonly_prefixes := ["ro_"], default_impl := true }

/-- Example configuration with CRUD-function generation disabled and the
centralized connection-type toggle inactive. -/
def noCrudConfig : GenerationConfig :=
  { defaultConfig with
      default_table_options := { TableOptions.default with fns := false } }

/-- Example table options whose Update string representation is the borrowed
view `&\x27a str` instead of the default owned `String`. -/
def borrowedStrOpts : TableOptions :=
  { TableOptions.default with
      update_str_type := "&\x27a str"
      create_str_type := "&\x27a str" }

/-- Example string column used by the counterexamples: a non-null,
non-array, signed text column. -/
def textColumn : ParsedColumnMacro :=
  { name := "text", column_name := "text", ty := "String", is_nullable := false,
    is_array := false, is_unsigned := false }

/-- All cargo features enabled, as in the published default build of the
generator. -/
def allFeatures : Features :=
  { advanced_queries := true, use_async := true, tsync := true, derive_queryablebyname := true }

/-- Example column that is a nullable array of 32-bit integers. -/
def arrayColumn : ParsedColumnMacro :=
  { name := "tags", column_name := "tags", ty := "i32", is_nullable := true,
    is_array := true, is_unsigned := false }

/-- Example nullable boolean column (the `done` column of the todos
example). -/
def doneColumn : ParsedColumnMacro :=
  { name := "done", column_name := "done", ty := "bool", is_nullable := true,
    is_array := false, is_unsigned := false }

/-- Example configuration equal to `defaultConfig` with the default-impl
option enabled. -/
def defaultImplConfig : GenerationConfig :=
  { defaultConfig with default_impl := true }

/-! Helper lemmas shared by the claim theorems. -/

/-- Field set of the Read variant: all columns, in order. -/
theorem fields_read (table : ParsedTableMacro) (opts : TableOptions) :
    Struct.fields .Read table opts = table.columns.map StructField.ofColumn := by
  simp [Struct.fields]

/-- Field names of the Create variant: all column names minus the resolved
autogenerated-column names. -/
theorem fields_create_names (table : ParsedTableMacro) (opts : TableOptions) :
    (Struct.fields .Create table opts).map StructField.name
      = (table.columns.map (fun c => c.name)).filter
          (fun n => !(opts.autogenerated_columns.contains n)) := by
  simp [Struct.fields, List.map_map, List.filter_map, Function.comp_def, StructField.ofColumn]

/-- Field names of the Update variant: all column names minus the
primary-key column names. -/
theorem fields_update_names (table : ParsedTableMacro) (opts : TableOptions) :
    (Struct.fields .Update table opts).map StructField.name
      = (table.columns.map (fun c => c.name)).filter
          (fun n => !(table.primary_key_columns.contains n)) := by
  simp [Struct.fields, List.map_map, List.filter_map, Function.comp_def, StructField.ofColumn]

/-- When the per-primary-key column lookup succeeds, the produced pairs
carry exactly the primary-key column names, in order. -/
theorem mapM_find_names (cols : List ParsedColumnMacro) (pks : List String)
    (pcnt : List (String × String))
    (h : pks.mapM (fun pk => (cols.find? (fun c => c.name = pk)).map
        (fun col => (col.name, col.ty))) = some pcnt) :
    pcnt.map Prod.fst = pks := by
  induction pks generalizing pcnt with
  | nil =>
    simp only [List.mapM_nil, pure, Option.some.injEq] at h
    simp [← h]
  | cons pk rest ih =>
    simp only [List.mapM_cons, Option.bind_eq_bind, Option.bind_eq_some, Option.map_eq_some',
      pure, Option.some.injEq] at h
    obtain ⟨hd, ⟨col, hfind, hcol⟩, tl, htl, hpcnt⟩ := h
    subst hpcnt
    have hname : col.name = pk := by
      have := List.find?_some hfind
      simpa using this
    simp [← hcol, hname, ih tl htl]

/-- The connection-type alias line never coincides with an import line that
starts with the word use. -/
theorem alias_ne_use (x y : String) :
    "pub type ConnectionType = " ++ x ++ ";" ≠ "use " ++ y := by
  intro h
  have hd : (("pub type ConnectionType = " ++ x ++ ";").data).head?
      = (("use " ++ y).data).head? := by rw [h]
  have h1 : (("pub type ConnectionType = " ++ x ++ ";").data).head? = some 'p' := rfl
  have h2 : (("use " ++ y).data).head? = some 'u' := rfl
  rw [h1, h2] at hd
  simp at hd

/-- The connection-type alias line never coincides with the leading
diesel import entry. -/
theorem alias_ne_allow (x : String) :
    "pub type ConnectionType = " ++ x ++ ";" ≠ "#[allow(unused)]\nuse crate::diesel::*;" := by
  intro h
  have hd : (("pub type ConnectionType = " ++ x ++ ";").data).head?
      = ("#[allow(unused)]\nuse crate::diesel::*;".data).head? := by rw [h]
  have h1 : (("pub type ConnectionType = " ++ x ++ ";").data).head? = some 'p' := rfl
  have h2 : ("#[allow(unused)]\nuse crate::diesel::*;".data).head? = some '#' := rfl
  rw [h1, h2] at hd
  simp at hd

/-- The connection-type alias line never coincides with the async
runtime import entry. -/
theorem alias_ne_async_import (x : String) :
    "pub type ConnectionType = " ++ x ++ ";" ≠ "use diesel_async::RunQueryDsl;" := by
  intro h
  have hd : (("pub type ConnectionType = " ++ x ++ ";").data).head?
      = ("use diesel_async::RunQueryDsl;".data).head? := by rw [h]
  have h1 : (("pub type ConnectionType = " ++ x ++ ";").data).head? = some 'p' := rfl
  have h2 : ("use diesel_async::RunQueryDsl;".data).head? = some 'u' := rfl
  rw [h1, h2] at hd
  simp at hd

/-- The connection-type alias line is never the empty spacer line. -/
theorem alias_ne_empty (x : String) :
    "pub type ConnectionType = " ++ x ++ ";" ≠ "" := by
  intro h
  have hd : (("pub type ConnectionType = " ++ x ++ ";").data).head?
      = ("".data).head? := by rw [h]
  have h1 : (("pub type ConnectionType = " ++ x ++ ";").data).head? = some 'p' := rfl
  rw [h1] at hd
  simp at hd

/-- Any type whose text starts with the Option constructor defaults to
None in default_for_type. -/
theorem default_for_type_option (t : String) (ht : str_starts_with t "Option<" = true) :
    default_for_type t = "None" := by
  unfold default_for_type
  split
  all_goals first
    | exact absurd ht (by decide)
    | simp [ht]

/-! Claim theorems. -/

/-- Claim C1, counterexample to the claim as frozen: with the Update string
representation configured as the borrowed view, the Update field type of a
string column is not the Read field type wrapped in one optional layer (the
base type is substituted first, as shown by the create_update_str_str test
of the repository). -/
theorem C1_counterexample :
    ¬ (render_field_type .Update borrowedStrOpts (StructField.ofColumn textColumn)
        = "Option<" ++ render_field_type .Read borrowedStrOpts (StructField.ofColumn textColumn)
            ++ ">") := by decide

/-- Claim C1, amended: for every column, the Update field type is exactly one
optional layer around the Read field type whenever the resolved Update
string and byte representations are the defaults (String, Vec<u8>); and for
every configuration the one extra optional wrap itself is never skipped. -/
theorem C1_update_wrap_default_repr (opts : TableOptions) (c : ParsedColumnMacro)
    (h1 : opts.update_str_type = "String")
    (h2 : opts.update_bytes_type = "Vec<u8>") :
    render_field_type .Update opts (StructField.ofColumn c)
      = "Option<" ++ render_field_type .Read opts (StructField.ofColumn c) ++ ">"
    ∧ ∀ opts2 : TableOptions, ∃ inner,
        render_field_type .Update opts2 (StructField.ofColumn c)
          = "Option<" ++ inner ++ ">" := by
  constructor
  · have hsub : ∀ ty : StructType, ty = .Read ∨ ty = .Update →
        substitute_str_type ty opts (StructField.ofColumn c) = StructField.ofColumn c := by
      intro ty hty
      unfold substitute_str_type
      rcases hty with h | h <;> subst h <;> split_ifs with hs hb
      · rfl
      · rfl
      · rfl
      · rw [h1, ← hs]
      · rw [h2, ← hb]
      · rfl
    unfold render_field_type
    rw [hsub _ (Or.inr rfl), hsub _ (Or.inl rfl)]
    simp
  · intro opts2
    exact ⟨(substitute_str_type .Update opts2 (StructField.ofColumn c)).to_rust_type,
      by simp [render_field_type]⟩

/-- Witness for claim C1 at the nullable boolean column of the todos
example: the Update type is the doubly-optional `Option<Option<bool>>`. -/
theorem C1_update_wrap_default_repr_witness :
    TableOptions.default.update_str_type = "String"
    ∧ TableOptions.default.update_bytes_type = "Vec<u8>"
    ∧ (render_field_type .Update TableOptions.default (StructField.ofColumn doneColumn)
        = "Option<" ++ render_field_type .Read TableOptions.default
            (StructField.ofColumn doneColumn) ++ ">"
      ∧ ∀ opts2 : TableOptions, ∃ inner,
          render_field_type .Update opts2 (StructField.ofColumn doneColumn)
            = "Option<" ++ inner ++ ">")
    ∧ render_field_type .Update TableOptions.default (StructField.ofColumn doneColumn)
        = "Option<Option<bool>>" :=
  ⟨rfl, rfl, C1_update_wrap_default_repr TableOptions.default doneColumn rfl rfl, by decide⟩

/-- Claim C2: the computed field sets of the three variants are exactly all
columns for Read (in order), all columns minus the resolved autogenerated
names for Create, and all columns minus the primary-key names for Update. -/
theorem C2_variant_field_sets (table : ParsedTableMacro) (opts : TableOptions) :
    Struct.fields .Read table opts = table.columns.map StructField.ofColumn
    ∧ (Struct.fields .Create table opts).map StructField.name
        = (table.columns.map (fun c => c.name)).filter
            (fun n => !(opts.autogenerated_columns.contains n))
    ∧ (Struct.fields .Update table opts).map StructField.name
        = (table.columns.map (fun c => c.name)).filter
            (fun n => !(table.primary_key_columns.contains n)) :=
  ⟨fields_read table opts, fields_create_names table opts, fields_update_names table opts⟩

/-- Claim C3: a table whose resolved options mark it readonly renders no
Create struct and no Update struct, still renders the Read struct, and its
function block contains no create, update or delete function while still
containing the read and paginate functions. -/
theorem C3_readonly_suppression (table : ParsedTableMacro) (config : GenerationConfig)
    (feats : Features) (pcnt : List (String × String))
    (hro : (config.table table.name).readonly = true)
    (hcols : table.columns ≠ [])
    (haq : feats.advanced_queries = true)
    (hres : primary_column_name_and_type table = some pcnt) :
    Struct.render .Create table (config.table table.name) = none
    ∧ Struct.render .Update table (config.table table.name) = none
    ∧ (Struct.render .Read table (config.table table.name)).isSome = true
    ∧ ∃ fns, build_table_fns table config feats = some fns
        ∧ (∀ f ∈ fns, f.isCreateFn = false ∧ f.isUpdateFn = false ∧ f.isDeleteFn = false)
        ∧ GeneratedFn.readFn (key_maybe_multiple pcnt) (item_id_params pcnt)
            (item_id_filters pcnt) ∈ fns
        ∧ GeneratedFn.paginateFn ∈ fns := by
  refine ⟨by simp [Struct.render, hro], by simp [Struct.render, hro], ?_, ?_⟩
  · simp [Struct.render, Struct.fields, hro, List.isEmpty_eq_true, hcols]
  · unfold build_table_fns
    rw [hres]
    refine ⟨_, rfl, ?_, ?_, ?_⟩
    · intro f hf
      simp only [hro, haq, Bool.not_true, Bool.false_eq_true, if_false, Bool.and_false,
        List.mem_append, List.mem_cons, List.mem_singleton, List.not_mem_nil, or_false,
        false_or, List.nil_append, List.append_nil] at hf
      rcases hf with (hf | rfl) | hf
      · revert hf
        split <;> intro hf
        · simp only [List.mem_singleton] at hf
          subst hf
          exact ⟨rfl, rfl, rfl⟩
        · simp at hf
      · exact ⟨rfl, rfl, rfl⟩
      · simp only [if_true, List.mem_cons, List.mem_singleton, List.not_mem_nil, or_false] at hf
        rcases hf with rfl | rfl <;> exact ⟨rfl, rfl, rfl⟩
    · simp [hro]
    · simp [hro, haq]

/-- Witness for claim C3 at a table whose name matches the configured
readonly prefix `ro_`. -/
theorem C3_readonly_suppression_witness :
    (readonlyConfig.table roTable.name).readonly = true
    ∧ roTable.columns ≠ []
    ∧ allFeatures.advanced_queries = true
    ∧ primary_column_name_and_type roTable = some [("id", "i32")]
    ∧ (Struct.render .Create roTable (readonlyConfig.table roTable.name) = none
      ∧ Struct.render .Update roTable (readonlyConfig.table roTable.name) = none
      ∧ (Struct.render .Read roTable (readonlyConfig.table roTable.name)).isSome = true
      ∧ ∃ fns, build_table_fns roTable readonlyConfig allFeatures = some fns
          ∧ (∀ f ∈ fns, f.isCreateFn = false ∧ f.isUpdateFn = false ∧ f.isDeleteFn = false)
          ∧ GeneratedFn.readFn (key_maybe_multiple [("id", "i32")])
              (item_id_params [("id", "i32")]) (item_id_filters [("id", "i32")]) ∈ fns
          ∧ GeneratedFn.paginateFn ∈ fns) :=
  ⟨by decide, by decide, by decide, by decide,
    C3_readonly_suppression roTable readonlyConfig allFeatures [("id", "i32")]
      (by decide) (by decide) (by decide) (by decide)⟩

/-- Claim C4: the generated paginate function clamps the page index to at
least 0 and the page size to at least 1, and returns the page count
`total/page_size + (1 if total % page_size != 0 else 0)`, which is the
ceiling of total over the clamped page size for any nonnegative total; in
particular 10 items with page size 3 give 4 pages and 9 items with page
size 3 give 3 pages. -/
theorem C4_paginate (page page_size total_items : Int) (htotal : 0 ≤ total_items) :
    (paginate_nums page page_size total_items).page = max page 0
    ∧ 0 ≤ (paginate_nums page page_size total_items).page
    ∧ (paginate_nums page page_size total_items).page_size = max page_size 1
    ∧ 1 ≤ (paginate_nums page page_size total_items).page_size
    ∧ (paginate_nums page page_size total_items).num_pages
        = total_items.tdiv (max page_size 1)
          + (if total_items.tmod (max page_size 1) ≠ 0 then 1 else 0)
    ∧ total_items
        ≤ (paginate_nums page page_size total_items).page_size
            * (paginate_nums page page_size total_items).num_pages
    ∧ (paginate_nums page page_size total_items).page_size
        * ((paginate_nums page page_size total_items).num_pages - 1) < total_items
    ∧ (paginate_nums 0 3 10).num_pages = 4
    ∧ (paginate_nums 0 3 9).num_pages = 3 := by
  have hps : (1 : Int) ≤ max page_size 1 := le_max_right _ _
  have hps0 : (0 : Int) < max page_size 1 := lt_of_lt_of_le one_pos hps
  have hdiv : total_items.tdiv (max page_size 1) = total_items / (max page_size 1) :=
    Int.tdiv_eq_ediv htotal (le_of_lt hps0)
  have hmod : total_items.tmod (max page_size 1) = total_items % (max page_size 1) :=
    Int.tmod_eq_emod htotal (le_of_lt hps0)
  have heuc : (max page_size 1) * (total_items / (max page_size 1))
      + total_items % (max page_size 1) = total_items := Int.ediv_add_emod _ _
  have hr0 : 0 ≤ total_items % (max page_size 1) := Int.emod_nonneg _ (ne_of_gt hps0)
  have hrlt : total_items % (max page_size 1) < max page_size 1 := Int.emod_lt_of_pos _ hps0
  refine ⟨rfl, le_max_right _ _, rfl, hps, rfl, ?_, ?_, by decide, by decide⟩
  · show total_items ≤ (max page_size 1) * (total_items.tdiv (max page_size 1)
      + (if total_items.tmod (max page_size 1) ≠ 0 then 1 else 0))
    rw [hdiv, hmod]
    by_cases h : total_items % (max page_size 1) = 0
    · simp [h] at heuc ⊢
      omega
    · simp [h]
      nlinarith [heuc, hr0, hrlt]
  · show (max page_size 1) * ((total_items.tdiv (max page_size 1)
      + (if total_items.tmod (max page_size 1) ≠ 0 then 1 else 0)) - 1) < total_items
    rw [hdiv, hmod]
    by_cases h : total_items % (max page_size 1) = 0
    · simp [h]
      nlinarith [heuc, hr0, hrlt]
    · simp [h]
      nlinarith [heuc, hr0, hrlt, lt_of_le_of_ne hr0 (Ne.symm h)]

/-- Witness for claim C4 at a negative page index, a nonpositive page size
and 10 total items. -/
theorem C4_paginate_witness :
    (0 : Int) ≤ 10
    ∧ ((paginate_nums (-7) 0 10).page = max (-7) 0
      ∧ 0 ≤ (paginate_nums (-7) 0 10).page
      ∧ (paginate_nums (-7) 0 10).page_size = max 0 1
      ∧ 1 ≤ (paginate_nums (-7) 0 10).page_size
      ∧ (paginate_nums (-7) 0 10).num_pages
          = (10 : Int).tdiv (max 0 1) + (if (10 : Int).tmod (max 0 1) ≠ 0 then 1 else 0)
      ∧ (10 : Int) ≤ (paginate_nums (-7) 0 10).page_size * (paginate_nums (-7) 0 10).num_pages
      ∧ (paginate_nums (-7) 0 10).page_size * ((paginate_nums (-7) 0 10).num_pages - 1)
          < (10 : Int)
      ∧ (paginate_nums 0 3 10).num_pages = 4
      ∧ (paginate_nums 0 3 9).num_pages = 3) :=
  ⟨by decide, C4_paginate (-7) 0 10 (by decide)⟩

/-- Claim C5: the read, update and delete functions take one `param_<name>`
parameter per primary-key column in primary-key order, chain one equality
filter per primary-key column, the chained filter holds exactly when every
per-column equality holds (conjunctive semantics), and the documentation
word is `key` for at most one primary-key column and `keys` for two or
more. -/
theorem C5_key_functions (table : ParsedTableMacro) (config : GenerationConfig)
    (feats : Features) (pcnt : List (String × String))
    (hres : primary_column_name_and_type table = some pcnt)
    (hro : (config.table table.name).readonly = false)
    (hupd : Struct.has_fields .Update table (config.table table.name) = true) :
    pcnt.map Prod.fst = table.primary_key_columns
    ∧ item_id_params pcnt
        = String.intercalate ", " (pcnt.map (fun nt => "param_" ++ nt.1 ++ ": " ++ nt.2))
    ∧ item_id_filters pcnt
        = String.intercalate "." (pcnt.map (fun nt =>
            "filter(" ++ nt.1 ++ ".eq(param_" ++ nt.1 ++ "))"))
    ∧ (∃ fns, build_table_fns table config feats = some fns
        ∧ GeneratedFn.readFn (key_maybe_multiple pcnt) (item_id_params pcnt)
            (item_id_filters pcnt) ∈ fns
        ∧ GeneratedFn.updateFn (key_maybe_multiple pcnt) (item_id_params pcnt)
            (item_id_filters pcnt) (StructType.format .Update table.struct_name) ∈ fns
        ∧ GeneratedFn.deleteFn (key_maybe_multiple pcnt) (item_id_params pcnt)
            (item_id_filters pcnt) ∈ fns)
    ∧ (∀ row param : String → Int,
        filter_chain_holds (pcnt.map Prod.fst) row param = true
          ↔ ∀ n ∈ table.primary_key_columns, row n = param n)
    ∧ (table.primary_key_columns.length ≤ 1 → key_maybe_multiple pcnt = "key")
    ∧ (2 ≤ table.primary_key_columns.length → key_maybe_multiple pcnt = "keys") := by
  have hnames : pcnt.map Prod.fst = table.primary_key_columns :=
    mapM_find_names table.columns table.primary_key_columns pcnt hres
  have hlen : pcnt.length = table.primary_key_columns.length := by
    rw [← hnames, List.length_map]
  refine ⟨hnames, rfl, rfl, ?_, ?_, ?_, ?_⟩
  · unfold build_table_fns
    rw [hres]
    refine ⟨_, rfl, ?_, ?_, ?_⟩ <;> simp [hro, hupd]
  · intro row param
    simp [filter_chain_holds, hnames, List.all_eq_true]
  · intro hle
    simp [key_maybe_multiple, hlen, hle]
  · intro hge
    have : ¬ pcnt.length ≤ 1 := by omega
    simp [key_maybe_multiple, this]

/-- Witness for claim C5 at a join table with the two primary-key columns
todo_id and tag_id. -/
theorem C5_key_functions_witness :
    primary_column_name_and_type joinTable = some [("todo_id", "i32"), ("tag_id", "i64")]
    ∧ (defaultConfig.table joinTable.name).readonly = false
    ∧ Struct.has_fields .Update joinTable (defaultConfig.table joinTable.name) = true
    ∧ ([("todo_id", "i32"), ("tag_id", "i64")].map Prod.fst = joinTable.primary_key_columns
      ∧ item_id_params [("todo_id", "i32"), ("tag_id", "i64")]
          = String.intercalate ", " ([("todo_id", "i32"), ("tag_id", "i64")].map
              (fun nt => "param_" ++ nt.1 ++ ": " ++ nt.2))
      ∧ item_id_filters [("todo_id", "i32"), ("tag_id", "i64")]
          = String.intercalate "." ([("todo_id", "i32"), ("tag_id", "i64")].map (fun nt =>
              "filter(" ++ nt.1 ++ ".eq(param_" ++ nt.1 ++ "))"))
      ∧ (∃ fns, build_table_fns joinTable defaultConfig allFeatures = some fns
          ∧ GeneratedFn.readFn (key_maybe_multiple [("todo_id", "i32"), ("tag_id", "i64")])
              (item_id_params [("todo_id", "i32"), ("tag_id", "i64")])
              (item_id_filters [("todo_id", "i32"), ("tag_id", "i64")]) ∈ fns
          ∧ GeneratedFn.updateFn (key_maybe_multiple [("todo_id", "i32"), ("tag_id", "i64")])
              (item_id_params [("todo_id", "i32"), ("tag_id", "i64")])
              (item_id_filters [("todo_id", "i32"), ("tag_id", "i64")])
              (StructType.format .Update joinTable.struct_name) ∈ fns
          ∧ GeneratedFn.deleteFn (key_maybe_multiple [("todo_id", "i32"), ("tag_id", "i64")])
              (item_id_params [("todo_id", "i32"), ("tag_id", "i64")])
              (item_id_filters [("todo_id", "i32"), ("tag_id", "i64")]) ∈ fns)
      ∧ (∀ row param : String → Int,
          filter_chain_holds ([("todo_id", "i32"), ("tag_id", "i64")].map Prod.fst) row param
              = true
            ↔ ∀ n ∈ joinTable.primary_key_columns, row n = param n)
      ∧ (joinTable.primary_key_columns.length ≤ 1
          → key_maybe_multiple [("todo_id", "i32"), ("tag_id", "i64")] = "key")
      ∧ (2 ≤ joinTable.primary_key_columns.length
          → key_maybe_multiple [("todo_id", "i32"), ("tag_id", "i64")] = "keys")) :=
  ⟨by decide, by decide, by decide,
    C5_key_functions joinTable defaultConfig allFeatures [("todo_id", "i32"), ("tag_id", "i64")]
      (by decide) (by decide) (by decide)⟩

/-- Claim C6, counterexample to the claim as frozen: for a Create-variant
string column under the borrowed string representation, the rendered type is
not the result of the four claimed steps alone — the representation
substitution step is missing from the claimed pipeline. -/
theorem C6_counterexample :
    ¬ (render_field_type .Create borrowedStrOpts (StructField.ofColumn textColumn)
        = claimed_pipeline_type .Create textColumn) := by decide

/-- Claim C6, amended: the rendered type of every field of every variant is
computed by applying, in fixed order, (1) the unsigned mapping, (1b) the
string or byte representation substitution for the Create and Update
variants, (2) the array wrap, (3) the nullable wrap, and (4) the extra
optional wrap for the Update variant; stated for columns whose unsigned flag
is only set on the single-i signed integer types, where the replace-based
unsigned mapping of the code agrees with the width-preserving counterpart
mapping of the spec. -/
theorem C6_type_resolution_order (ty : StructType) (opts : TableOptions)
    (c : ParsedColumnMacro)
    (h : c.is_unsigned = true → c.ty ∈ ["i8", "i16", "i32", "i64", "i128"]) :
    render_field_type ty opts (StructField.ofColumn c) = amended_pipeline_type ty opts c := by
  rcases c with ⟨name, cname, cty, null, arr, uns⟩
  cases uns with
  | false =>
    by_cases hs : cty = "String"
    · subst hs
      cases ty <;> cases arr <;> cases null <;> rfl
    · by_cases hb : cty = "Vec<u8>"
      · subst hb
        cases ty <;> cases arr <;> cases null <;> rfl
      · simp only [StructField.ofColumn, render_field_type, substitute_str_type,
          StructField.to_rust_type, amended_pipeline_type, Bool.false_eq_true, if_false,
          if_neg hs, if_neg hb]
  | true =>
    have hmem := h rfl
    simp only [List.mem_cons, List.not_mem_nil, or_false] at hmem
    rcases hmem with rfl | rfl | rfl | rfl | rfl <;>
      cases ty <;> cases arr <;> cases null <;> rfl

/-- Witness for claim C6 at a nullable array column of 32-bit integers in
the Read variant: the rendered type is `Option<Vec<Option<i32>>>`. -/
theorem C6_type_resolution_order_witness :
    (arrayColumn.is_unsigned = true → arrayColumn.ty ∈ ["i8", "i16", "i32", "i64", "i128"])
    ∧ render_field_type .Read TableOptions.default (StructField.ofColumn arrayColumn)
        = amended_pipeline_type .Read TableOptions.default arrayColumn
    ∧ render_field_type .Read TableOptions.default (StructField.ofColumn arrayColumn)
        = "Option<Vec<Option<i32>>>" :=
  ⟨by decide,
    C6_type_resolution_order .Read TableOptions.default arrayColumn (by decide),
    by decide⟩

/-- Claim C7: for a non-readonly table exactly one create function is
emitted — the payload form when the Create struct has fields, the
default-values form otherwise — and a readonly table emits no create
function at all. -/
theorem C7_create_function (table : ParsedTableMacro) (config : GenerationConfig)
    (feats : Features) (pcnt : List (String × String))
    (hres : primary_column_name_and_type table = some pcnt) :
    ∃ fns, build_table_fns table config feats = some fns
    ∧ fns.countP GeneratedFn.isCreateFn
        = (if (config.table table.name).readonly then 0 else 1)
    ∧ ((config.table table.name).readonly = false →
        Struct.has_fields .Create table (config.table table.name) = true →
          GeneratedFn.createPayload (StructType.format .Create table.struct_name) ∈ fns)
    ∧ ((config.table table.name).readonly = false →
        Struct.has_fields .Create table (config.table table.name) = false →
          GeneratedFn.createDefault ∈ fns)
    ∧ ((config.table table.name).readonly = true →
        ∀ f ∈ fns, f.isCreateFn = false) := by
  unfold build_table_fns
  rw [hres]
  refine ⟨_, rfl, ?_, ?_, ?_, ?_⟩
  · cases hro : (config.table table.name).readonly <;>
    cases hcf : Struct.has_fields .Create table (config.table table.name) <;>
    cases hcs : config.once_common_structs <;>
    cases haq : feats.advanced_queries <;>
    cases hupd : Struct.has_fields .Update table (config.table table.name) <;>
      simp [hro, hcf, hcs, haq, hupd, List.countP_append, List.countP_cons,
        GeneratedFn.isCreateFn]
  · intro hro hcf
    simp [hro, hcf]
  · intro hro hcf
    simp [hro, hcf]
  · intro hro f hf
    simp only [hro, Bool.not_true, Bool.false_eq_true, if_false, Bool.and_false,
      List.nil_append, List.append_nil, List.mem_append, List.mem_cons, List.mem_singleton,
      List.not_mem_nil, or_false] at hf
    rcases hf with (hf | rfl) | hf
    · revert hf
      split <;> intro hf
      · simp only [List.mem_singleton] at hf
        subst hf
        rfl
      · simp at hf
    · rfl
    · revert hf
      split <;> intro hf
      · simp only [List.mem_cons, List.mem_singleton, List.not_mem_nil, or_false] at hf
        rcases hf with rfl | rfl <;> rfl
      · simp at hf

/-- Witness for claim C7 at the todos example table under the default
configuration: one payload-form create function. -/
theorem C7_create_function_witness :
    primary_column_name_and_type todosTable = some [("id", "i32")]
    ∧ (∃ fns, build_table_fns todosTable defaultConfig allFeatures = some fns
        ∧ fns.countP GeneratedFn.isCreateFn
            = (if (defaultConfig.table todosTable.name).readonly then 0 else 1)
        ∧ ((defaultConfig.table todosTable.name).readonly = false →
            Struct.has_fields .Create todosTable (defaultConfig.table todosTable.name) = true →
              GeneratedFn.createPayload (StructType.format .Create todosTable.struct_name) ∈ fns)
        ∧ ((defaultConfig.table todosTable.name).readonly = false →
            Struct.has_fields .Create todosTable (defaultConfig.table todosTable.name) = false →
              GeneratedFn.createDefault ∈ fns)
        ∧ ((defaultConfig.table todosTable.name).readonly = true →
            ∀ f ∈ fns, f.isCreateFn = false)) :=
  ⟨by decide, C7_create_function todosTable defaultConfig allFeatures [("id", "i32")] (by decide)⟩

/-- Claim C8: the Read variant derive set contains the parent-association
capability exactly when the table has at least one foreign key, and the
identifiability capability exactly when it has a foreign key or a non-empty
primary-key list; the assembly is a plain function of the table and resolved
configuration. -/
theorem C8_read_capabilities (table : ParsedTableMacro) (config : GenerationConfig)
    (feats : Features) :
    (derives.ASSOCIATIONS ∈ Struct.attr_derive .Read table config feats
        ↔ table.foreign_keys ≠ [])
    ∧ (derives.IDENTIFIABLE ∈ Struct.attr_derive .Read table config feats
        ↔ (table.foreign_keys ≠ [] ∨ table.primary_key_columns ≠ [])) := by
  cases hs : (config.table table.name).serde <;>
    cases hfk : table.foreign_keys <;>
      cases hpk : table.primary_key_columns <;>
        simp [Struct.attr_derive, hs, hfk, hpk, derives.ASSOCIATIONS, derives.IDENTIFIABLE]

/-- Claim C9, counterexample to the claim as frozen: with CRUD-function
generation disabled and the centralized connection-type toggle inactive,
the import block still omits the connection-type alias, so inactivity of
the toggle alone does not imply inclusion. -/
theorem C9_counterexample :
    noCrudConfig.once_connection_type = false
    ∧ ¬ (generate_connection_type noCrudConfig
          ∈ build_imports todosTable noCrudConfig allFeatures) := by decide

/-- Claim C9, amended: the per-table import block contains the
connection-type alias exactly when the table generates CRUD functions and
the centralized connection-type toggle is inactive. -/
theorem C9_connection_type_import (table : ParsedTableMacro) (config : GenerationConfig)
    (feats : Features) :
    generate_connection_type config ∈ build_imports table config feats
      ↔ ((config.table table.name).fns = true ∧ config.once_connection_type = false) := by
  unfold build_imports generate_connection_type
  constructor
  · intro hmem
    simp only [List.mem_append, List.mem_cons, List.not_mem_nil, or_false, List.mem_map] at hmem
    rcases hmem with ((((hm | hm) | hm) | hm) | hm) | hm
    · exact absurd hm (alias_ne_allow _)
    · obtain ⟨fk, _, hm⟩ := hm
      exact absurd hm.symm (alias_ne_use _ _)
    · revert hm
      split <;> intro hm
      · simp only [List.mem_singleton] at hm
        exact absurd hm (alias_ne_async_import _)
      · simp at hm
    · exact absurd hm (alias_ne_use _ _)
    · revert hm
      split <;> intro hm
      · simp only [List.mem_singleton] at hm
        exact absurd hm (alias_ne_use _ _)
      · simp at hm
    · revert hm
      split <;> intro hm
      · rename_i hcond
        simp only [Bool.and_eq_true, Bool.not_eq_true'] at hcond
        exact hcond
      · simp at hm
  · intro ⟨h1, h2⟩
    simp [h1, h2]

/-- Claim C10: when the default-impl option is enabled and a Create struct
was rendered, the generated file contains a Default impl for the Create
struct built from all of the table columns (not the filtered Create field
set); every nullable column defaults to None and every non-nullable column
to the fixed default of its type — 0 for the integer types, 0.0 for the
float types, false for bool, an empty-string expression for the string
types, None for Option types, and the generic default otherwise. -/
theorem C10_create_default_impl (table : ParsedTableMacro) (config : GenerationConfig)
    (feats : Features) (frags : List Fragment) (code : List (String × String))
    (hgen : generate_for_table table config feats = some frags)
    (hdi : config.default_impl = true)
    (hcreate : Struct.render .Create table (config.table table.name) = some code) :
    Fragment.createDefaultImpl
        (build_default_impl_fn (StructType.format .Create table.struct_name) table.columns)
      ∈ frags
    ∧ default_impl_lines table.columns
        = table.columns.map (fun col =>
            "            " ++ col.name ++ ": "
              ++ (if col.is_nullable then "None" else default_for_type col.ty))
    ∧ default_for_type "i16" = "0" ∧ default_for_type "i32" = "0"
    ∧ default_for_type "i64" = "0" ∧ default_for_type "u32" = "0"
    ∧ default_for_type "f32" = "0.0" ∧ default_for_type "f64" = "0.0"
    ∧ default_for_type "bool" = "false"
    ∧ default_for_type "String" = "String::new()"
    ∧ default_for_type "&str" = "\"\""
    ∧ default_for_type "Cow<str>" = "Cow::Owned(String::new())"
    ∧ (∀ t : String, str_starts_with t "Option<" = true → default_for_type t = "None")
    ∧ default_for_type "chrono::NaiveDateTime" = "Default::default()" := by
  refine ⟨?_, rfl, rfl, rfl, rfl, rfl, rfl, rfl, rfl, rfl, rfl, rfl,
    fun t ht => default_for_type_option t ht, rfl⟩
  unfold generate_for_table at hgen
  simp only [hcreate, hdi, if_true] at hgen
  by_cases hfns : (config.table table.name).fns
  · simp only [hfns, if_true] at hgen
    cases hb : build_table_fns table config feats with
    | none => rw [hb] at hgen; cases hgen
    | some fns =>
      rw [hb] at hgen
      simp only [Option.some.injEq] at hgen
      subst hgen
      simp
  · simp only [hfns, Bool.false_eq_true, if_false] at hgen
    simp only [Option.some.injEq] at hgen
    subst hgen
    simp

set_option maxRecDepth 20000 in
/-- Witness for claim C10 at the todos example table with the default-impl
option enabled. -/
theorem C10_create_default_impl_witness :
    generate_for_table todosTable defaultImplConfig allFeatures
        = some ((generate_for_table todosTable defaultImplConfig allFeatures).getD [])
    ∧ defaultImplConfig.default_impl = true
    ∧ Struct.render .Create todosTable (defaultImplConfig.table todosTable.name)
        = some ((Struct.render .Create todosTable
            (defaultImplConfig.table todosTable.name)).getD [])
    ∧ (Fragment.createDefaultImpl
          (build_default_impl_fn (StructType.format .Create todosTable.struct_name)
            todosTable.columns)
        ∈ (generate_for_table todosTable defaultImplConfig allFeatures).getD []
      ∧ default_impl_lines todosTable.columns
          = todosTable.columns.map (fun col =>
              "            " ++ col.name ++ ": "
                ++ (if col.is_nullable then "None" else default_for_type col.ty))
      ∧ default_for_type "i16" = "0" ∧ default_for_type "i32" = "0"
      ∧ default_for_type "i64" = "0" ∧ default_for_type "u32" = "0"
      ∧ default_for_type "f32" = "0.0" ∧ default_for_type "f64" = "0.0"
      ∧ default_for_type "bool" = "false"
      ∧ default_for_type "String" = "String::new()"
      ∧ default_for_type "&str" = "\"\""
      ∧ default_for_type "Cow<str>" = "Cow::Owned(String::new())"
      ∧ (∀ t : String, str_starts_with t "Option<" = true → default_for_type t = "None")
      ∧ default_for_type "chrono::NaiveDateTime" = "Default::default()") :=
  ⟨by decide, rfl, by decide,
    C10_create_default_impl todosTable defaultImplConfig allFeatures
      ((generate_for_table todosTable defaultImplConfig allFeatures).getD [])
      ((Struct.render .Create todosTable (defaultImplConfig.table todosTable.name)).getD [])
      (by decide) rfl (by decide)⟩
